import Mathlib

/-!
Verification of the weather subsystem of the kisaan_mitra backend.

This file gives a shallow embedding of the weather module
(`weather/config.py`, `weather/models.py`, `weather/repositories.py`,
`weather/services.py`, `weather/language_utils.py`,
`weather/offline_manager.py`) and proves or refutes the frozen claims
about it.

Modelling conventions:
* Python floats are modelled as rationals (`ℚ`); none of the verified
  properties depend on floating-point rounding.
* Timestamps are abstract integers measured in hours
  (`timedelta(days=d)` is `24 * d`); the offline store compares ISO-8601
  strings, whose lexicographic order agrees with chronological order for
  the uniformly formatted strings the module writes.
* The canonical relational store and the Django cache are the external
  collaborators of the spec; a canonical-store write (`Model.save()`)
  is modelled as an oracle that either succeeds or raises, and the cache
  entries the module reads are passed in explicitly.
* The Django settings module defines none of the `WEATHER_*` overrides,
  so the `getattr(settings, _, default)` defaults of `config.py` are the
  configured values.
-/

namespace KisaanWeather

/-- Python float values. -/
abbrev Val : Type := ℚ

/-- Abstract timestamps, in hours. -/
abbrev Time : Type := ℤ

/-! ## Configuration registry (`weather/config.py`, defaults) -/

/-- `WEATHER_CONFIG['LANGUAGES']` keys: `{'hi': 'Hindi', 'hr': 'Haryanvi', 'en': 'English'}`. -/
def LANGUAGES : List String := ["hi", "hr", "en"]

/-- `WEATHER_CONFIG['DEFAULT_LANGUAGE']`. -/
def DEFAULT_LANGUAGE : String := "hi"

/-- `WEATHER_CONFIG['ALERT_THRESHOLDS']['HIGH_HUMIDITY']` (default 80). -/
def HIGH_HUMIDITY : Val := 80

/-- `ALERT_SEVERITY_LEVELS` from `config.py` (0 for keys outside the table). -/
def ALERT_SEVERITY_LEVELS (s : String) : ℕ :=
  if s = "LOW" then 1
  else if s = "MEDIUM" then 2
  else if s = "HIGH" then 3
  else if s = "EXTREME" then 4
  else 0

/-! ## Canonical models (`weather/models.py`)

Only the fields the claims touch are embedded; omitted columns play no
role in any verified operation. -/

/-- A canonical `WeatherData` row (observation). -/
structure WeatherData where
  location_id : ℤ
  temperature : Val
  humidity : Val
  rainfall : Val
  soil_moisture : Option Val
  timestamp : Time
  data_source : String
deriving DecidableEq

/-- A canonical `WeatherAlert` row. -/
structure WeatherAlert where
  location_id : ℤ
  alert_type : String
  severity : String
  description : String
  recommended_actions : String
  start_time : Time
  end_time : Time
  resolved_at : Option Time
  resolution_notes : String
  actual_impact : String
  is_active : Bool
  affected_crops : List ℤ
deriving DecidableEq

/-- `WeatherAlert.resolve` (models.py): unconditionally deactivates the
alert, stamps `resolved_at` with the current time and overwrites the
notes and impact, then saves. `t` is the value of `timezone.now()` at
the call. -/
def WeatherAlert.resolve (a : WeatherAlert) (t : Time) (notes impact : String) : WeatherAlert :=
  { a with
    is_active := false
    resolved_at := some t
    resolution_notes := notes
    actual_impact := impact }

/-- `WeatherAlert.get_duration` (models.py). A Python `datetime` is always
truthy, so `if self.resolved_at:` tests presence. -/
def WeatherAlert.get_duration (a : WeatherAlert) : Option ℤ :=
  match a.resolved_at with
  | some r => some (r - a.start_time)
  | none => if a.is_active then none else some (a.end_time - a.start_time)

/-! ## Weather repository (`weather/repositories.py`) -/

/-- Comparator embedding `order_by('-timestamp')`. -/
abbrev tsDesc (w₁ w₂ : WeatherData) : Prop := w₂.timestamp ≤ w₁.timestamp

/-- `WeatherRepository.get_current_weather`. `cached` is the value the
Django cache holds under `weather_current_weather_{location_id}` (a
cached model instance is truthy, so it is returned as is); on a cache
miss the most recent observation with `timestamp ≥ now − window` is
returned (and cached). `window` is `TIME_INTERVALS['CURRENT_WEATHER']`
in hours. -/
def get_current_weather (cached : Option WeatherData) (db : List WeatherData)
    (now : Time) (window : ℤ) (location_id : ℤ) : Option WeatherData :=
  match cached with
  | some w => some w
  | none =>
    let cutoff := now - window
    (List.insertionSort tsDesc
      (db.filter fun w => w.location_id == location_id && decide (cutoff ≤ w.timestamp))).head?

/-- The crop clause of `get_active_alerts`: `if crop_id:` is a Python
truthiness test, so `None` and `0` both skip the crop filter. -/
def crop_filter (crop_id : Option ℤ) (a : WeatherAlert) : Bool :=
  match crop_id with
  | none => true
  | some c => if c = 0 then true else a.affected_crops.contains c

/-- The row filter of `get_active_alerts`:
`Q(location_id=..., is_active=True, end_time__gt=timezone.now())`
plus the optional crop clause. -/
def active_pred (now : Time) (location_id : ℤ) (crop_id : Option ℤ) (a : WeatherAlert) : Bool :=
  a.location_id == location_id && a.is_active && decide (now < a.end_time)
    && crop_filter crop_id a

/-- Comparator embedding `order_by('-severity', '-start_time')`: the
`severity` column is a `CharField`, so the sort compares the stored
strings descending (modelled as lexicographic codepoint order on the
character lists, which is the binary collation for these ASCII values). -/
abbrev severityStartDesc (a b : WeatherAlert) : Prop :=
  b.severity.data < a.severity.data ∨ (a.severity = b.severity ∧ b.start_time ≤ a.start_time)

/-- `WeatherRepository.get_active_alerts`. -/
def get_active_alerts (db : List WeatherAlert) (now : Time)
    (location_id : ℤ) (crop_id : Option ℤ) : List WeatherAlert :=
  List.insertionSort severityStartDesc (db.filter (active_pred now location_id crop_id))

/-- `WEATHER_CONFIG['VALIDATION']` bounds consumed by
`WeatherRepository._validate_weather_data` (the key set read by the
code; the concrete numbers are configuration). -/
structure ValidationBounds where
  min_temperature : Val
  max_temperature : Val
  min_humidity : Val
  max_humidity : Val
  max_wind_speed : Val
  max_rainfall : Val
deriving DecidableEq

/-- The payload dict handed to `create_weather_data`, restricted to the
four keys the validator reads with `data.get(key, 0)`. -/
structure WeatherPayload where
  temperature : Option Val
  humidity : Option Val
  wind_speed : Option Val
  rainfall : Option Val
deriving DecidableEq

/-- `WeatherRepository._validate_weather_data`: each measurement is read
with `data.get(key, 0)`, so an absent key is checked as `0`. -/
def validate_weather_data (v : ValidationBounds) (d : WeatherPayload) : Except String Unit :=
  if ¬(v.min_temperature ≤ d.temperature.getD 0 ∧ d.temperature.getD 0 ≤ v.max_temperature) then
    Except.error "Temperature out of valid range"
  else if ¬(v.min_humidity ≤ d.humidity.getD 0 ∧ d.humidity.getD 0 ≤ v.max_humidity) then
    Except.error "Humidity out of valid range"
  else if v.max_wind_speed < d.wind_speed.getD 0 then
    Except.error "Wind speed out of valid range"
  else if v.max_rainfall < d.rainfall.getD 0 then
    Except.error "Rainfall out of valid range"
  else
    Except.ok ()

/-- The payload with every absent measurement key replaced by `0`. -/
def fill_defaults (d : WeatherPayload) : WeatherPayload :=
  { temperature := some (d.temperature.getD 0)
    humidity := some (d.humidity.getD 0)
    wind_speed := some (d.wind_speed.getD 0)
    rainfall := some (d.rainfall.getD 0) }

/-! ## Weather analysis service (`weather/services.py`) -/

/-- Crop attributes consumed by the suitability assessment (the crop
lookup contract of the spec). -/
structure Crop where
  min_temp : Val
  max_temp : Val
  min_humidity : Val
  max_humidity : Val
  min_soil_moisture : Val
  max_soil_moisture : Val
deriving DecidableEq

/-- `WeatherAnalysisService._analyze_risk_factors` (renamed without the
leading underscore). `weather.soil_moisture and weather.soil_moisture < ...`
is a Python truthiness conjunction: `None` and `0.0` are falsy. -/
def analyze_risk_factors (weather : WeatherData) (crop : Crop) : List String :=
  (if weather.temperature ≤ crop.min_temp then ["Cold stress risk"] else []) ++
  (if crop.max_temp ≤ weather.temperature then ["Heat stress risk"] else []) ++
  (if HIGH_HUMIDITY ≤ weather.humidity then ["Disease risk due to high humidity"] else []) ++
  (match weather.soil_moisture with
   | none => []
   | some v => if v ≠ 0 ∧ v < crop.min_soil_moisture then ["Drought stress risk"] else [])

/-- The verdict returned by `assess_crop_suitability`. In Python the
`soil_moisture_suitable` entry is `None`/`0.0`/`False`/`True`; it is
embedded as its truthiness. -/
structure CropSuitability where
  temperature_suitable : Bool
  humidity_suitable : Bool
  soil_moisture_suitable : Bool
  risk_factors : List String
deriving DecidableEq

/-- `WeatherAnalysisService.assess_crop_suitability`. -/
def assess_crop_suitability (weather : WeatherData) (crop : Crop) : CropSuitability :=
  { temperature_suitable :=
      decide (crop.min_temp ≤ weather.temperature ∧ weather.temperature ≤ crop.max_temp)
    humidity_suitable :=
      decide (crop.min_humidity ≤ weather.humidity ∧ weather.humidity ≤ crop.max_humidity)
    soil_moisture_suitable :=
      match weather.soil_moisture with
      | none => false
      | some v =>
        if v = 0 then false
        else decide (crop.min_soil_moisture ≤ v ∧ v ≤ crop.max_soil_moisture)
    risk_factors := analyze_risk_factors weather crop }

/-! ## Translator (`weather/language_utils.py`) -/

/-- One entry of a translation table: the `en`/`hi`/`hr` texts. -/
structure LangEntry where
  en : String
  hi : String
  hr : String
deriving DecidableEq

/-- Indexing an entry dict by a language code; `none` is a `KeyError`. -/
def langLookup (e : LangEntry) (lang : String) : Option String :=
  if lang = "en" then some e.en
  else if lang = "hi" then some e.hi
  else if lang = "hr" then some e.hr
  else none

/-- `WEATHER_CONDITIONS` from `config.py`. -/
def WEATHER_CONDITIONS : List (String × LangEntry) :=
  [("CLEAR", ⟨"Clear", "साफ़", "साफ"⟩),
   ("PARTLY_CLOUDY", ⟨"Partly Cloudy", "आंशिक रूप से बादल", "थोड़े बादल"⟩),
   ("CLOUDY", ⟨"Cloudy", "बादल", "बादल"⟩),
   ("RAIN", ⟨"Rain", "बारिश", "बरखा"⟩),
   ("THUNDERSTORM", ⟨"Thunderstorm", "आंधी", "आंधी"⟩),
   ("FOG", ⟨"Fog", "कोहरा", "कुहरा"⟩),
   ("HAZE", ⟨"Haze", "धुंध", "धुंध"⟩)]

/-- `WeatherTranslator.TEMPERATURE_RANGES`. -/
def TEMPERATURE_RANGES : List (String × LangEntry) :=
  [("VERY_COLD", ⟨"Very Cold", "बहुत ठंडा", "बहुत ठंडा"⟩),
   ("COLD", ⟨"Cold", "ठंडा", "ठंडा"⟩),
   ("MODERATE", ⟨"Moderate", "सामान्य", "ठीक"⟩),
   ("WARM", ⟨"Warm", "गरम", "गरम"⟩),
   ("HOT", ⟨"Hot", "बहुत गरम", "तपत"⟩)]

/-- `WeatherTranslator.SOIL_CONDITIONS`. -/
def SOIL_CONDITIONS : List (String × LangEntry) :=
  [("DRY", ⟨"Dry soil - irrigation needed", "सूखी मिट्टी - सिंचाई की आवश्यकता है", "सूखी माटी - पानी की जरूरत है"⟩),
   ("MOIST", ⟨"Good soil moisture", "अच्छी नमी", "बढ़िया नमी"⟩),
   ("WET", ⟨"Wet soil - avoid irrigation", "गीली मिट्टी - सिंचाई न करें", "गीली माटी - पानी ना दें"⟩)]

/-- `WeatherTranslator.ALERT_TYPES`. -/
def TRANSLATOR_ALERT_TYPES : List (String × LangEntry) :=
  [("FROST", ⟨"Frost Warning", "पाला चेतावनी", "पाला की चेतावनी"⟩),
   ("HEATWAVE", ⟨"Heat Wave Warning", "लू की चेतावनी", "लू की चेतावनी"⟩),
   ("HEAVY_RAIN", ⟨"Heavy Rain Warning", "भारी बारिश की चेतावनी", "तेज बरखा की चेतावनी"⟩),
   ("PEST_RISK", ⟨"High Pest Risk", "कीट का खतरा", "कीड़े का खतरा"⟩),
   ("DISEASE_RISK", ⟨"Disease Risk", "बीमारी का खतरा", "बीमारी का खतरा"⟩)]

/-- `WeatherTranslator.FARMING_ACTIONS`. -/
def FARMING_ACTIONS : List (String × LangEntry) :=
  [("IRRIGATE", ⟨"Irrigation needed", "सिंचाई करें", "पानी देना जरूरी है"⟩),
   ("SPRAY", ⟨"Suitable for spraying", "छिड़काव के लिए उपयुक्त", "दवाई डालने का टैम है"⟩),
   ("PROTECT", ⟨"Protect crops", "फसल की रक्षा करें", "फसल की रखवाली करें"⟩),
   ("HARVEST", ⟨"Good for harvesting", "कटाई के लिए उपयुक्त", "कटाई का बढ़िया टैम है"⟩)]

/-- The translator: after construction only the chosen language remains. -/
structure WeatherTranslator where
  language : String
deriving DecidableEq

/-- `WeatherTranslator.__init__`:
`self.language = preferred_language or DEFAULT_LANGUAGE` (so `None` and
the empty string fall back to the configured default), then an
unsupported code is replaced by the literal `'en'`. -/
def WeatherTranslator.make (preferred_language : Option String) : WeatherTranslator :=
  let lang :=
    match preferred_language with
    | none => DEFAULT_LANGUAGE
    | some s => if s = "" then DEFAULT_LANGUAGE else s
  { language := if LANGUAGES.contains lang then lang else "en" }

/-- `WeatherTranslator.get_weather_condition`: dict indexing under
`try/except KeyError`, returning the raw key on a miss. -/
def WeatherTranslator.get_weather_condition (t : WeatherTranslator) (condition : String) : String :=
  (((WEATHER_CONDITIONS.lookup condition).bind fun e => langLookup e t.language)).getD condition

/-- The band selection of `get_temperature_description`. -/
def temperature_range_key (temperature : Val) : String :=
  if temperature ≤ 5 then "VERY_COLD"
  else if temperature ≤ 15 then "COLD"
  else if temperature ≤ 25 then "MODERATE"
  else if temperature ≤ 35 then "WARM"
  else "HOT"

/-- `WeatherTranslator.get_temperature_description`; there is no
`try/except` here, so `none` models an uncaught `KeyError` (unreachable
for translators built by `make`). -/
def WeatherTranslator.get_temperature_description (t : WeatherTranslator) (temperature : Val) :
    Option String :=
  (TEMPERATURE_RANGES.lookup (temperature_range_key temperature)).bind
    fun e => langLookup e t.language

/-- The band selection of `get_soil_condition`. -/
def soil_condition_key (moisture_percentage : Val) : String :=
  if moisture_percentage < 30 then "DRY"
  else if moisture_percentage > 70 then "WET"
  else "MOIST"

/-- `WeatherTranslator.get_soil_condition` (no `try/except`). -/
def WeatherTranslator.get_soil_condition (t : WeatherTranslator) (moisture_percentage : Val) :
    Option String :=
  (SOIL_CONDITIONS.lookup (soil_condition_key moisture_percentage)).bind
    fun e => langLookup e t.language

/-- `WeatherTranslator.get_alert_type` (`try/except KeyError`). -/
def WeatherTranslator.get_alert_type (t : WeatherTranslator) (alert_type : String) : String :=
  (((TRANSLATOR_ALERT_TYPES.lookup alert_type).bind fun e => langLookup e t.language)).getD alert_type

/-- `WeatherTranslator.get_farming_action` (`try/except KeyError`). -/
def WeatherTranslator.get_farming_action (t : WeatherTranslator) (action : String) : String :=
  (((FARMING_ACTIONS.lookup action).bind fun e => langLookup e t.language)).getD action

/-! ## Offline data manager (`weather/offline_manager.py`) -/

/-- The `sync_status` column: only `'pending'` and `'synced'` are ever
written. -/
inductive SyncStatus where
  | pending
  | synced
deriving DecidableEq

/-- A row of the local `weather_data` table. -/
structure OfflineWeatherRow where
  id : ℕ
  location_id : ℤ
  temperature : Val
  humidity : Val
  rainfall : Val
  timestamp : Time
  data_source : String
  sync_status : SyncStatus
deriving DecidableEq

/-- A row of the local `weather_alerts` table. -/
structure OfflineAlertRow where
  id : ℕ
  location_id : ℤ
  alert_type : String
  severity : String
  description : String
  start_time : Time
  end_time : Time
  sync_status : SyncStatus
deriving DecidableEq

/-- The local SQLite store (the `weather_forecasts` table is written by
no claim-relevant operation and is omitted). -/
structure OfflineDB where
  weather : List OfflineWeatherRow
  alerts : List OfflineAlertRow
deriving DecidableEq

/-- The canonical store the sync pass writes into. -/
structure CanonicalStore where
  weather : List WeatherData
  alerts : List WeatherAlert
deriving DecidableEq

/-- The `WeatherData(...)` constructed by `sync_data` from a local row
(fields not passed keep their model defaults). -/
def OfflineWeatherRow.toCanonical (r : OfflineWeatherRow) : WeatherData :=
  { location_id := r.location_id
    temperature := r.temperature
    humidity := r.humidity
    rainfall := r.rainfall
    soil_moisture := none
    timestamp := r.timestamp
    data_source := r.data_source }

/-- The `WeatherAlert(...)` constructed by `sync_data` from a local row. -/
def OfflineAlertRow.toCanonical (r : OfflineAlertRow) : WeatherAlert :=
  { location_id := r.location_id
    alert_type := r.alert_type
    severity := r.severity
    description := r.description
    recommended_actions := ""
    start_time := r.start_time
    end_time := r.end_time
    resolved_at := none
    resolution_notes := ""
    actual_impact := ""
    is_active := true
    affected_crops := [] }

/-- The canonical store is an external collaborator: each
`Model.save()` either succeeds or raises, per row. -/
structure SyncEnv where
  weatherSaveOk : OfflineWeatherRow → Bool
  alertSaveOk : OfflineAlertRow → Bool

/-- The rows selected by `SELECT * FROM weather_data WHERE sync_status = 'pending'`
(note: no location filter in the source). -/
def pendingWeather (db : OfflineDB) : List OfflineWeatherRow :=
  db.weather.filter fun r => r.sync_status == SyncStatus.pending

/-- The rows selected by `SELECT * FROM weather_alerts WHERE sync_status = 'pending'`. -/
def pendingAlerts (db : OfflineDB) : List OfflineAlertRow :=
  db.alerts.filter fun r => r.sync_status == SyncStatus.pending

/-- The shape shared by the two per-row loops of `sync_data`: save each
row canonically (`ok`), collect the canonical write (`conv`) and queue
the local `UPDATE ... SET sync_status = 'synced'` (`ident`). The first
raising save aborts the loop (there is no per-row `try`), keeping the
canonical writes already performed and discarding the queued updates. -/
def syncLoop {α β : Type} (ok : α → Bool) (conv : α → β) (ident : α → ℕ) :
    List α → List β × List ℕ × Bool
  | [] => ([], [], true)
  | r :: rest =>
    if ok r then
      let out := syncLoop ok conv ident rest
      (conv r :: out.1, ident r :: out.2.1, out.2.2)
    else ([], [], false)

/-- The per-row loop over pending observations. -/
def syncWeatherLoop (env : SyncEnv) (rows : List OfflineWeatherRow) :
    List WeatherData × List ℕ × Bool :=
  syncLoop env.weatherSaveOk OfflineWeatherRow.toCanonical (fun r => r.id) rows

/-- The per-row loop over pending alerts. -/
def syncAlertLoop (env : SyncEnv) (rows : List OfflineAlertRow) :
    List WeatherAlert × List ℕ × Bool :=
  syncLoop env.alertSaveOk OfflineAlertRow.toCanonical (fun r => r.id) rows

/-- Applying the committed `UPDATE` statements for the given row ids. -/
def markSyncedWeather (rows : List OfflineWeatherRow) (ids : List ℕ) : List OfflineWeatherRow :=
  rows.map fun r => if ids.contains r.id then { r with sync_status := SyncStatus.synced } else r

/-- Applying the committed `UPDATE` statements for the given alert ids. -/
def markSyncedAlerts (rows : List OfflineAlertRow) (ids : List ℕ) : List OfflineAlertRow :=
  rows.map fun r => if ids.contains r.id then { r with sync_status := SyncStatus.synced } else r

/-- The outcome of one `sync_data` call. -/
structure SyncResult where
  offline : OfflineDB
  canonical : CanonicalStore
  lastSync : Option Time
  ok : Bool
deriving DecidableEq

/-- `OfflineDataManager.sync_data`. `lastSync` is the cached
`weather_last_sync_{location_id}` marker read at entry; `now` is
`timezone.now()`.

When the marker is present, the source evaluates
`(timezone.now() - last_sync).hours` — but a Python `timedelta` has no
attribute `hours`, so this raises `AttributeError`, which the broad
`except (sqlite3.Error, Exception)` catches, returning `False` with
nothing touched.

Otherwise all pending rows are written through the per-row loops; only
if every save succeeds is `conn.commit()` reached (committing the
`sync_status` updates) and the marker set. On a raising save the local
transaction is never committed, so the local store is unchanged, while
the canonical writes already performed remain durable. -/
def sync_data (lastSync : Option Time) (now : Time) (db : OfflineDB)
    (store : CanonicalStore) (env : SyncEnv) : SyncResult :=
  match lastSync with
  | some t =>
    { offline := db, canonical := store, lastSync := some t, ok := false }
  | none =>
    let w := syncWeatherLoop env (pendingWeather db)
    if w.2.2 then
      let a := syncAlertLoop env (pendingAlerts db)
      if a.2.2 then
        { offline := ⟨markSyncedWeather db.weather w.2.1, markSyncedAlerts db.alerts a.2.1⟩
          canonical := ⟨store.weather ++ w.1, store.alerts ++ a.1⟩
          lastSync := some now
          ok := true }
      else
        { offline := db
          canonical := ⟨store.weather ++ w.1, store.alerts ++ a.1⟩
          lastSync := none
          ok := false }
    else
      { offline := db
        canonical := ⟨store.weather ++ w.1, store.alerts⟩
        lastSync := none
        ok := false }

/-- A payload dict for `store_offline_data`, with all keys either path
reads. -/
structure OfflinePayload where
  temperature : Val
  humidity : Val
  rainfall : Val
  timestamp : Time
  data_source : String
  alert_type : String
  severity : String
  description : String
  start_time : Time
  end_time : Time
deriving DecidableEq

/-- The next `AUTOINCREMENT` id for the local `weather_data` table. -/
def nextWeatherId (db : OfflineDB) : ℕ :=
  (db.weather.map (·.id)).foldr Nat.max 0 + 1

/-- The next `AUTOINCREMENT` id for the local `weather_alerts` table. -/
def nextAlertId (db : OfflineDB) : ℕ :=
  (db.alerts.map (·.id)).foldr Nat.max 0 + 1

/-- `OfflineDataManager.store_offline_data`: an `if/elif` chain with no
`else` — a `data_type` other than `'weather_data'` and `'alert'` inserts
nothing, commits, and returns `True`. -/
def store_offline_data (db : OfflineDB) (location_id : ℤ) (data_type : String)
    (data : OfflinePayload) : OfflineDB × Bool :=
  if data_type = "weather_data" then
    ({ db with
        weather := db.weather ++
          [{ id := nextWeatherId db
             location_id := location_id
             temperature := data.temperature
             humidity := data.humidity
             rainfall := data.rainfall
             timestamp := data.timestamp
             data_source := data.data_source
             sync_status := SyncStatus.pending }] }, true)
  else if data_type = "alert" then
    ({ db with
        alerts := db.alerts ++
          [{ id := nextAlertId db
             location_id := location_id
             alert_type := data.alert_type
             severity := data.severity
             description := data.description
             start_time := data.start_time
             end_time := data.end_time
             sync_status := SyncStatus.pending }] }, true)
  else
    (db, true)

/-- `OfflineDataManager.cleanup_old_data`: `cutoff = now − timedelta(days=min_storage_days)`;
`DELETE FROM weather_data WHERE timestamp < cutoff AND sync_status = 'synced'` and
`DELETE FROM weather_alerts WHERE end_time < cutoff AND sync_status = 'synced'`. -/
def cleanup_old_data (db : OfflineDB) (now : Time) (min_storage_days : ℤ) : OfflineDB :=
  let cutoff := now - 24 * min_storage_days
  { weather := db.weather.filter fun r =>
      !(decide (r.timestamp < cutoff) && r.sync_status == SyncStatus.synced)
    alerts := db.alerts.filter fun r =>
      !(decide (r.end_time < cutoff) && r.sync_status == SyncStatus.synced) }

/-! ## Concrete fixtures used by the claim theorems -/

/-- An environment in which every canonical save succeeds. -/
def envAllOk : SyncEnv := ⟨fun _ => true, fun _ => true⟩

/-- A local store holding one pending observation. -/
def db1 : OfflineDB := ⟨[⟨1, 7, 25, 60, 0, 0, "TEST", SyncStatus.pending⟩], []⟩

/-- An empty canonical store. -/
def store1 : CanonicalStore := ⟨[], []⟩

/-- A pending observation whose canonical save raises (id 1). -/
def rowFail : OfflineWeatherRow := ⟨1, 7, 25, 60, 0, 0, "TEST", SyncStatus.pending⟩

/-- An independent pending observation whose canonical save would
succeed (id 2). -/
def rowOk2 : OfflineWeatherRow := ⟨2, 7, 26, 61, 0, 1, "TEST", SyncStatus.pending⟩

/-- A local store holding the failing row before the healthy one. -/
def db2 : OfflineDB := ⟨[rowFail, rowOk2], []⟩

/-- An environment in which exactly the save of row id 1 raises. -/
def env2 : SyncEnv := ⟨fun r => decide (r.id ≠ 1), fun _ => true⟩

/-- An observation for location 1 timestamped 25 hours before `now = 100`. -/
def staleRow : WeatherData := ⟨1, 25, 60, 0, none, 75, "TEST"⟩

/-- A well-formed offline payload. -/
def payload5 : OfflinePayload := ⟨25, 65, 0, 0, "TEST", "FROST", "HIGH", "Test alert", 0, 6⟩

/-- An empty local store. -/
def db5 : OfflineDB := ⟨[], []⟩

/-- A crop whose maximum temperature is 40. -/
def cropW : Crop := ⟨10, 40, 30, 70, 20, 60⟩

/-- A reading hotter than `cropW.max_temp`, above the high-humidity
threshold, with no soil-moisture measurement. -/
def readingW : WeatherData := ⟨1, 45, 90, 0, none, 0, "TEST"⟩

/-- An active alert (start 0, end 10). -/
def alert7 : WeatherAlert :=
  ⟨1, "FROST", "HIGH", "Test alert", "Protect crops", 0, 10, none, "", "", true, []⟩

/-- An active EXTREME alert for location 1. -/
def alertExtreme : WeatherAlert :=
  ⟨1, "HEATWAVE", "EXTREME", "heat", "protect", 0, 10, none, "", "", true, []⟩

/-- An active MEDIUM alert for location 1 with the same times. -/
def alertMedium : WeatherAlert :=
  ⟨1, "FROST", "MEDIUM", "frost", "protect", 0, 10, none, "", "", true, []⟩

/-- The ordering the claim asserts: severity descending under the
numeric ranking `EXTREME > HIGH > MEDIUM > LOW` of
`ALERT_SEVERITY_LEVELS`, then `start_time` descending. -/
abbrev claimSeverityDesc (a b : WeatherAlert) : Prop :=
  ALERT_SEVERITY_LEVELS b.severity < ALERT_SEVERITY_LEVELS a.severity ∨
    (ALERT_SEVERITY_LEVELS a.severity = ALERT_SEVERITY_LEVELS b.severity ∧
      b.start_time ≤ a.start_time)

/-! ## Shared lemmas -/

/-- The `ORDER BY` comparator is total. -/
instance severityStartDesc_isTotal : IsTotal WeatherAlert severityStartDesc := by
  constructor
  intro a b
  rcases lt_trichotomy a.severity.data b.severity.data with h | h | h
  · exact Or.inr (Or.inl h)
  · rcases le_total a.start_time b.start_time with hs | hs
    · exact Or.inr (Or.inr ⟨(String.ext h).symm, hs⟩)
    · exact Or.inl (Or.inr ⟨String.ext h, hs⟩)
  · exact Or.inl (Or.inl h)

/-- The `ORDER BY` comparator is transitive. -/
instance severityStartDesc_isTrans : IsTrans WeatherAlert severityStartDesc := by
  constructor
  intro a b c hab hbc
  rcases hab with h1 | ⟨h1, h1'⟩ <;> rcases hbc with h2 | ⟨h2, h2'⟩
  · exact Or.inl (lt_trans h2 h1)
  · exact Or.inl (congrArg String.data h2 ▸ h1)
  · exact Or.inl (lt_of_lt_of_eq h2 (congrArg String.data h1.symm))
  · exact Or.inr ⟨h1.trans h2, le_trans h2' h1'⟩

/-- What one per-row sync loop guarantees: every collected write comes
from a row whose save succeeded; a `false` outcome pinpoints a row whose
save raised; a `true` outcome means every row was saved and queued. -/
theorem syncLoop_sound {α β : Type} (ok : α → Bool) (conv : α → β) (ident : α → ℕ)
    (rows : List α) :
    (∀ w ∈ (syncLoop ok conv ident rows).1, ∃ r, r ∈ rows ∧ ok r = true ∧ w = conv r) ∧
    ((syncLoop ok conv ident rows).2.2 = false → ∃ r, r ∈ rows ∧ ok r = false) ∧
    ((syncLoop ok conv ident rows).2.2 = true →
      (syncLoop ok conv ident rows).1 = rows.map conv ∧
      (syncLoop ok conv ident rows).2.1 = rows.map ident ∧
      ∀ r ∈ rows, ok r = true) := by
  induction rows with
  | nil => simp [syncLoop]
  | cons r rest ih =>
    cases hr : ok r with
    | false =>
      simp only [syncLoop, hr, Bool.false_eq_true, if_false]
      refine ⟨by simp, fun _ => ⟨r, List.mem_cons_self r rest, hr⟩, by simp⟩
    | true =>
      simp only [syncLoop, hr, if_true]
      refine ⟨?_, ?_, ?_⟩
      · intro w hw
        rcases List.mem_cons.mp hw with h | h
        · exact ⟨r, List.mem_cons_self r rest, hr, h⟩
        · obtain ⟨r', hr', hok, hw'⟩ := ih.1 w h
          exact ⟨r', List.mem_cons_of_mem r hr', hok, hw'⟩
      · intro hfail
        obtain ⟨r', hr', hok⟩ := ih.2.1 hfail
        exact ⟨r', List.mem_cons_of_mem r hr', hok⟩
      · intro hokAll
        obtain ⟨h1, h2, h3⟩ := ih.2.2 hokAll
        refine ⟨by simp [h1], by simp [h2], ?_⟩
        intro r' hr'
        rcases List.mem_cons.mp hr' with h | h
        · exact h ▸ hr
        · exact h3 r' h

/-- `syncLoop_sound` phrased for the observation loop. -/
theorem syncWeatherLoop_sound (env : SyncEnv) (rows : List OfflineWeatherRow) :
    (∀ w ∈ (syncWeatherLoop env rows).1,
      ∃ r, r ∈ rows ∧ env.weatherSaveOk r = true ∧ w = r.toCanonical) ∧
    ((syncWeatherLoop env rows).2.2 = false →
      ∃ r, r ∈ rows ∧ env.weatherSaveOk r = false) ∧
    ((syncWeatherLoop env rows).2.2 = true →
      (syncWeatherLoop env rows).1 = rows.map OfflineWeatherRow.toCanonical ∧
      (syncWeatherLoop env rows).2.1 = rows.map (fun r => r.id) ∧
      ∀ r ∈ rows, env.weatherSaveOk r = true) :=
  syncLoop_sound _ _ _ rows

/-- `syncLoop_sound` phrased for the alert loop. -/
theorem syncAlertLoop_sound (env : SyncEnv) (rows : List OfflineAlertRow) :
    (∀ w ∈ (syncAlertLoop env rows).1,
      ∃ r, r ∈ rows ∧ env.alertSaveOk r = true ∧ w = r.toCanonical) ∧
    ((syncAlertLoop env rows).2.2 = false →
      ∃ r, r ∈ rows ∧ env.alertSaveOk r = false) ∧
    ((syncAlertLoop env rows).2.2 = true →
      (syncAlertLoop env rows).1 = rows.map OfflineAlertRow.toCanonical ∧
      (syncAlertLoop env rows).2.1 = rows.map (fun r => r.id) ∧
      ∀ r ∈ rows, env.alertSaveOk r = true) :=
  syncLoop_sound _ _ _ rows

/-- The pending-row query on the local observation table. -/
theorem mem_pendingWeather {r : OfflineWeatherRow} {db : OfflineDB} :
    r ∈ pendingWeather db ↔ r ∈ db.weather ∧ r.sync_status = SyncStatus.pending := by
  simp [pendingWeather]

/-- The pending-row query on the local alert table. -/
theorem mem_pendingAlerts {r : OfflineAlertRow} {db : OfflineDB} :
    r ∈ pendingAlerts db ↔ r ∈ db.alerts ∧ r.sync_status = SyncStatus.pending := by
  simp [pendingAlerts]

/-- Marking an already-synced observation row is the identity. -/
theorem markW_of_synced {r : OfflineWeatherRow} (h : r.sync_status = SyncStatus.synced) :
    ({ r with sync_status := SyncStatus.synced } : OfflineWeatherRow) = r := by
  rw [← h]

/-- Marking an already-synced alert row is the identity. -/
theorem markA_of_synced {r : OfflineAlertRow} (h : r.sync_status = SyncStatus.synced) :
    ({ r with sync_status := SyncStatus.synced } : OfflineAlertRow) = r := by
  rw [← h]

/-- The three outcomes of a marker-free `sync_data` call, by the two
loop flags. -/
theorem sync_data_none_def (now : Time) (db : OfflineDB) (store : CanonicalStore)
    (env : SyncEnv) :
    sync_data none now db store env =
      (if (syncWeatherLoop env (pendingWeather db)).2.2 then
        (if (syncAlertLoop env (pendingAlerts db)).2.2 then
          { offline := ⟨markSyncedWeather db.weather (syncWeatherLoop env (pendingWeather db)).2.1,
                        markSyncedAlerts db.alerts (syncAlertLoop env (pendingAlerts db)).2.1⟩
            canonical := ⟨store.weather ++ (syncWeatherLoop env (pendingWeather db)).1,
                          store.alerts ++ (syncAlertLoop env (pendingAlerts db)).1⟩
            lastSync := some now
            ok := true }
        else
          { offline := db
            canonical := ⟨store.weather ++ (syncWeatherLoop env (pendingWeather db)).1,
                          store.alerts ++ (syncAlertLoop env (pendingAlerts db)).1⟩
            lastSync := none
            ok := false })
      else
        { offline := db
          canonical := ⟨store.weather ++ (syncWeatherLoop env (pendingWeather db)).1,
                        store.alerts⟩
          lastSync := none
          ok := false }) := rfl

/-- Membership in `get_active_alerts` is membership in the underlying
table plus the row filter (the sort is a permutation). -/
theorem mem_get_active_alerts {a : WeatherAlert} (db : List WeatherAlert) (now : Time)
    (location_id : ℤ) (crop_id : Option ℤ) :
    a ∈ get_active_alerts db now location_id crop_id ↔
      a ∈ db ∧ active_pred now location_id crop_id a = true := by
  unfold get_active_alerts
  rw [List.mem_insertionSort, List.mem_filter]

/-! ## Claim theorems -/

/-- C1: a `sync_data` call made within the sync-frequency window after a
successful sync is claimed to be a no-op success (return `True`). On the
code, the first call (no marker) succeeds, syncs the pending row and
sets the marker; the second call, one hour later with the marker alive,
touches neither store — but returns `False`, because
`(timezone.now() - last_sync).hours` raises `AttributeError`
(`timedelta` has no attribute `hours`) and the broad `except` turns that
into a `False` return. The canonical write still happens only once. -/
theorem sync_data_rate_limited_call_returns_false :
    (sync_data none 0 db1 store1 envAllOk).ok = true ∧
    (sync_data none 0 db1 store1 envAllOk).lastSync = some 0 ∧
    (sync_data none 0 db1 store1 envAllOk).canonical.weather.length = 1 ∧
    sync_data (sync_data none 0 db1 store1 envAllOk).lastSync 1
        (sync_data none 0 db1 store1 envAllOk).offline
        (sync_data none 0 db1 store1 envAllOk).canonical envAllOk =
      { offline := (sync_data none 0 db1 store1 envAllOk).offline
        canonical := (sync_data none 0 db1 store1 envAllOk).canonical
        lastSync := some 0
        ok := false } :=
  ⟨rfl, rfl, rfl, rfl⟩

/-- C2 counterexample: the claim says a failure on one row must not
block the syncing of other independent pending rows. With two pending
rows where only the first save raises, the pass aborts: the healthy
second row (whose save would succeed) is neither written canonically nor
marked synced, and the call returns `False` with the local store
untouched. -/
theorem sync_data_failure_blocks_independent_rows :
    env2.weatherSaveOk rowOk2 = true ∧
    rowOk2.sync_status = SyncStatus.pending ∧
    rowOk2 ∈ db2.weather ∧
    (sync_data none 0 db2 store1 env2).ok = false ∧
    (sync_data none 0 db2 store1 env2).canonical.weather = [] ∧
    (sync_data none 0 db2 store1 env2).offline = db2 :=
  ⟨rfl, rfl, List.mem_cons_of_mem rowFail (List.mem_cons_self rowOk2 []), rfl, rfl, rfl⟩

/-- C2 (amended): during a marker-free `sync_data` pass, each row is
marked synced only after its own canonical write succeeded, canonical
writes once performed are never rolled back, and every new canonical row
comes from a pending row whose save succeeded; but the pass is not
per-row isolated: any failure leaves the whole local store exactly as it
was (the failing row and all later rows stay pending, and the queued
synced-marks are discarded because the local transaction is never
committed) and returns `False`, while on full success every pending row
is written, marked synced, and the last-sync marker is set. -/
theorem sync_data_pass_properties :
    ∀ (now : Time) (db : OfflineDB) (store : CanonicalStore) (env : SyncEnv),
    (∃ tw, (sync_data none now db store env).canonical.weather = store.weather ++ tw) ∧
    (∃ ta, (sync_data none now db store env).canonical.alerts = store.alerts ++ ta) ∧
    (∀ w ∈ (sync_data none now db store env).canonical.weather,
      w ∈ store.weather ∨ ∃ r, r ∈ db.weather ∧ r.sync_status = SyncStatus.pending ∧
        env.weatherSaveOk r = true ∧ w = r.toCanonical) ∧
    (∀ b ∈ (sync_data none now db store env).canonical.alerts,
      b ∈ store.alerts ∨ ∃ r, r ∈ db.alerts ∧ r.sync_status = SyncStatus.pending ∧
        env.alertSaveOk r = true ∧ b = r.toCanonical) ∧
    ((sync_data none now db store env).ok = false →
      (sync_data none now db store env).offline = db ∧
      (sync_data none now db store env).lastSync = none ∧
      ((∃ r, r ∈ db.weather ∧ r.sync_status = SyncStatus.pending ∧
          env.weatherSaveOk r = false) ∨
       (∃ r, r ∈ db.alerts ∧ r.sync_status = SyncStatus.pending ∧
          env.alertSaveOk r = false))) ∧
    ((sync_data none now db store env).ok = true →
      (sync_data none now db store env).lastSync = some now ∧
      (∀ r, r ∈ db.weather → r.sync_status = SyncStatus.pending →
        r.toCanonical ∈ (sync_data none now db store env).canonical.weather ∧
        { r with sync_status := SyncStatus.synced } ∈
          (sync_data none now db store env).offline.weather) ∧
      (∀ r, r ∈ db.alerts → r.sync_status = SyncStatus.pending →
        r.toCanonical ∈ (sync_data none now db store env).canonical.alerts ∧
        { r with sync_status := SyncStatus.synced } ∈
          (sync_data none now db store env).offline.alerts)) ∧
    (∀ r' ∈ (sync_data none now db store env).offline.weather,
      r' ∈ db.weather ∨ (r'.sync_status = SyncStatus.synced ∧ ∃ r, r ∈ db.weather ∧
        r.sync_status = SyncStatus.pending ∧ env.weatherSaveOk r = true ∧
        r' = { r with sync_status := SyncStatus.synced })) ∧
    (∀ r' ∈ (sync_data none now db store env).offline.alerts,
      r' ∈ db.alerts ∨ (r'.sync_status = SyncStatus.synced ∧ ∃ r, r ∈ db.alerts ∧
        r.sync_status = SyncStatus.pending ∧ env.alertSaveOk r = true ∧
        r' = { r with sync_status := SyncStatus.synced })) := by
  intro now db store env
  have HW := syncWeatherLoop_sound env (pendingWeather db)
  have HA := syncAlertLoop_sound env (pendingAlerts db)
  rw [sync_data_none_def]
  by_cases hW : (syncWeatherLoop env (pendingWeather db)).2.2 = true
  · by_cases hA : (syncAlertLoop env (pendingAlerts db)).2.2 = true
    · rw [if_pos hW, if_pos hA]
      obtain ⟨hWmap, hWids, hWall⟩ := HW.2.2 hW
      obtain ⟨hAmap, hAids, hAall⟩ := HA.2.2 hA
      refine ⟨⟨_, rfl⟩, ⟨_, rfl⟩, ?_, ?_, ?_, ?_, ?_, ?_⟩
      · intro w hw
        rcases List.mem_append.mp hw with h | h
        · exact Or.inl h
        · obtain ⟨r, hrP, hok, hw'⟩ := HW.1 w h
          obtain ⟨hrdb, hrp⟩ := mem_pendingWeather.mp hrP
          exact Or.inr ⟨r, hrdb, hrp, hok, hw'⟩
      · intro b hb
        rcases List.mem_append.mp hb with h | h
        · exact Or.inl h
        · obtain ⟨r, hrP, hok, hb'⟩ := HA.1 b h
          obtain ⟨hrdb, hrp⟩ := mem_pendingAlerts.mp hrP
          exact Or.inr ⟨r, hrdb, hrp, hok, hb'⟩
      · intro h
        simp at h
      · intro _
        refine ⟨rfl, ?_, ?_⟩
        · intro r hrdb hrp
          have hrP : r ∈ pendingWeather db := mem_pendingWeather.mpr ⟨hrdb, hrp⟩
          have hid : ((syncWeatherLoop env (pendingWeather db)).2.1).contains r.id = true := by
            rw [hWids]
            exact List.elem_eq_true_of_mem (List.mem_map_of_mem (fun r => r.id) hrP)
          constructor
          · have hmem : r.toCanonical ∈ (syncWeatherLoop env (pendingWeather db)).1 := by
              rw [hWmap]
              exact List.mem_map_of_mem _ hrP
            exact List.mem_append.mpr (Or.inr hmem)
          · exact List.mem_map.mpr ⟨r, hrdb, if_pos hid⟩
        · intro r hrdb hrp
          have hrP : r ∈ pendingAlerts db := mem_pendingAlerts.mpr ⟨hrdb, hrp⟩
          have hid : ((syncAlertLoop env (pendingAlerts db)).2.1).contains r.id = true := by
            rw [hAids]
            exact List.elem_eq_true_of_mem (List.mem_map_of_mem (fun r => r.id) hrP)
          constructor
          · have hmem : r.toCanonical ∈ (syncAlertLoop env (pendingAlerts db)).1 := by
              rw [hAmap]
              exact List.mem_map_of_mem _ hrP
            exact List.mem_append.mpr (Or.inr hmem)
          · exact List.mem_map.mpr ⟨r, hrdb, if_pos hid⟩
      · intro r' hr'
        obtain ⟨r, hrdb, hr'eq⟩ := List.mem_map.mp hr'
        by_cases hid : ((syncWeatherLoop env (pendingWeather db)).2.1).contains r.id = true
        · have hmark : ({ r with sync_status := SyncStatus.synced } : OfflineWeatherRow) = r' :=
            (if_pos hid).symm.trans hr'eq
          cases hs : r.sync_status with
          | pending =>
            have hrP : r ∈ pendingWeather db := mem_pendingWeather.mpr ⟨hrdb, hs⟩
            exact Or.inr ⟨hmark ▸ rfl, r, hrdb, hs, hWall r hrP, hmark.symm⟩
          | synced =>
            have hz : r = r' := (markW_of_synced hs).symm.trans hmark
            exact Or.inl (hz ▸ hrdb)
        · have hz : r = r' := (if_neg hid).symm.trans hr'eq
          exact Or.inl (hz ▸ hrdb)
      · intro r' hr'
        obtain ⟨r, hrdb, hr'eq⟩ := List.mem_map.mp hr'
        by_cases hid : ((syncAlertLoop env (pendingAlerts db)).2.1).contains r.id = true
        · have hmark : ({ r with sync_status := SyncStatus.synced } : OfflineAlertRow) = r' :=
            (if_pos hid).symm.trans hr'eq
          cases hs : r.sync_status with
          | pending =>
            have hrP : r ∈ pendingAlerts db := mem_pendingAlerts.mpr ⟨hrdb, hs⟩
            exact Or.inr ⟨hmark ▸ rfl, r, hrdb, hs, hAall r hrP, hmark.symm⟩
          | synced =>
            have hz : r = r' := (markA_of_synced hs).symm.trans hmark
            exact Or.inl (hz ▸ hrdb)
        · have hz : r = r' := (if_neg hid).symm.trans hr'eq
          exact Or.inl (hz ▸ hrdb)
    · rw [if_pos hW, if_neg hA]
      have hA' : (syncAlertLoop env (pendingAlerts db)).2.2 = false :=
        Bool.not_eq_true _ ▸ hA
      refine ⟨⟨_, rfl⟩, ⟨_, rfl⟩, ?_, ?_, ?_, ?_, fun r' h => Or.inl h, fun r' h => Or.inl h⟩
      · intro w hw
        rcases List.mem_append.mp hw with h | h
        · exact Or.inl h
        · obtain ⟨r, hrP, hok, hw'⟩ := HW.1 w h
          obtain ⟨hrdb, hrp⟩ := mem_pendingWeather.mp hrP
          exact Or.inr ⟨r, hrdb, hrp, hok, hw'⟩
      · intro b hb
        rcases List.mem_append.mp hb with h | h
        · exact Or.inl h
        · obtain ⟨r, hrP, hok, hb'⟩ := HA.1 b h
          obtain ⟨hrdb, hrp⟩ := mem_pendingAlerts.mp hrP
          exact Or.inr ⟨r, hrdb, hrp, hok, hb'⟩
      · intro _
        refine ⟨rfl, rfl, Or.inr ?_⟩
        obtain ⟨r, hrP, hok⟩ := HA.2.1 hA'
        obtain ⟨hrdb, hrp⟩ := mem_pendingAlerts.mp hrP
        exact ⟨r, hrdb, hrp, hok⟩
      · intro h
        simp at h
  · rw [if_neg hW]
    have hW' : (syncWeatherLoop env (pendingWeather db)).2.2 = false :=
      Bool.not_eq_true _ ▸ hW
    refine ⟨⟨_, rfl⟩, ⟨[], (List.append_nil _).symm⟩, ?_, fun b hb => Or.inl hb, ?_, ?_,
      fun r' h => Or.inl h, fun r' h => Or.inl h⟩
    · intro w hw
      rcases List.mem_append.mp hw with h | h
      · exact Or.inl h
      · obtain ⟨r, hrP, hok, hw'⟩ := HW.1 w h
        obtain ⟨hrdb, hrp⟩ := mem_pendingWeather.mp hrP
        exact Or.inr ⟨r, hrdb, hrp, hok, hw'⟩
    · intro _
      refine ⟨rfl, rfl, Or.inl ?_⟩
      obtain ⟨r, hrP, hok⟩ := HW.2.1 hW'
      obtain ⟨hrdb, hrp⟩ := mem_pendingWeather.mp hrP
      exact ⟨r, hrdb, hrp, hok⟩
    · intro h
      simp at h

/-- C2 witness: at the concrete failing pass the theorem's failure
branch applies — the local store is untouched. -/
theorem sync_data_pass_properties_witness :
    (sync_data none 0 db2 store1 env2).ok = false ∧
    (sync_data none 0 db2 store1 env2).offline = db2 :=
  ⟨rfl, ((sync_data_pass_properties 0 db2 store1 env2).2.2.2.2.1 rfl).1⟩

/-- C3: `get_current_weather` is claimed never to return an observation
older than the recency window, regardless of the cache. On the code, a
cached entry is returned without any timestamp check: with a 1-hour
window, `now = 100`, and the cache holding an observation timestamped
75 (25 hours old), the call returns the stale observation instead of
none. -/
theorem get_current_weather_returns_stale_cached :
    get_current_weather (some staleRow) [staleRow] 100 1 1 = some staleRow ∧
    staleRow.timestamp < 100 - 1 :=
  ⟨rfl, by decide⟩

/-- C5: `store_offline_data` with a kind outside `{'weather_data',
'alert'}` is claimed to report an error. On the code, the `if/elif`
chain has no `else`: with kind `'forecast'` (which the docstring even
lists as supported) nothing is inserted and the call returns `True`. -/
theorem store_offline_data_unsupported_kind_noop :
    ("forecast" ≠ "weather_data" ∧ "forecast" ≠ "alert") ∧
    store_offline_data db5 7 "forecast" payload5 = (db5, true) :=
  ⟨⟨by decide, by decide⟩, rfl⟩

/-- C6: `cleanup_old_data` deletes exactly the synced rows older than
the retention cutoff `now − 24·min_storage_days` hours: an observation
row survives iff it is pending or its `timestamp` is at or after the
cutoff, and an alert row survives iff it is pending or its `end_time`
is at or after the cutoff; no row is added. -/
theorem cleanup_old_data_retention :
    ∀ (db : OfflineDB) (now min_storage_days : ℤ)
      (w : OfflineWeatherRow) (a : OfflineAlertRow),
    (w ∈ (cleanup_old_data db now min_storage_days).weather ↔
      w ∈ db.weather ∧
        (w.sync_status = SyncStatus.pending ∨ now - 24 * min_storage_days ≤ w.timestamp)) ∧
    (a ∈ (cleanup_old_data db now min_storage_days).alerts ↔
      a ∈ db.alerts ∧
        (a.sync_status = SyncStatus.pending ∨ now - 24 * min_storage_days ≤ a.end_time)) := by
  intro db now d w a
  have hw : ∀ s : SyncStatus, ((s == SyncStatus.synced) = false ↔ s = SyncStatus.pending) := by
    intro s; cases s <;> simp
  constructor <;>
    · simp only [cleanup_old_data, List.mem_filter, Bool.not_eq_true',
        Bool.and_eq_false_iff, decide_eq_false_iff_not, not_lt, hw]
      tauto

/-- C10: `_validate_weather_data` reads each measurement with
`data.get(key, 0)`, so validation of a payload coincides with validation
of the payload with every absent measurement replaced by `0`, and it
succeeds exactly when those four defaulted values satisfy the configured
bounds — a payload is never rejected merely for omitting a field. -/
theorem validate_weather_data_defaults_missing_to_zero :
    ∀ (v : ValidationBounds) (d : WeatherPayload),
    validate_weather_data v d = validate_weather_data v (fill_defaults d) ∧
    (validate_weather_data v d = Except.ok () ↔
      (v.min_temperature ≤ d.temperature.getD 0 ∧ d.temperature.getD 0 ≤ v.max_temperature ∧
       v.min_humidity ≤ d.humidity.getD 0 ∧ d.humidity.getD 0 ≤ v.max_humidity ∧
       d.wind_speed.getD 0 ≤ v.max_wind_speed ∧ d.rainfall.getD 0 ≤ v.max_rainfall)) := by
  intro v d
  refine ⟨rfl, ?_⟩
  unfold validate_weather_data
  split_ifs with h1 h2 h3 h4 <;> simp_all [not_le, not_lt]

/-- C4 counterexample: with an EXTREME and a MEDIUM active alert,
`get_active_alerts` returns the MEDIUM alert first — `order_by('-severity')`
sorts the severity strings lexicographically descending, and
`"MEDIUM" > "EXTREME"` as strings — so the claimed
`EXTREME > HIGH > MEDIUM > LOW` descending order does not hold. -/
theorem get_active_alerts_medium_before_extreme :
    get_active_alerts [alertExtreme, alertMedium] 5 1 none = [alertMedium, alertExtreme] ∧
    ¬ claimSeverityDesc alertMedium alertExtreme := by
  constructor
  · decide
  · decide

/-- C4 (amended): `get_active_alerts` returns exactly the alerts of the
location that are active with `end_time` in the future (intersected with
the crop association when a truthy crop id is given), ordered by the
severity *string* descending (so `MEDIUM > LOW > HIGH > EXTREME`) and,
within equal severity strings, by `start_time` descending. -/
theorem get_active_alerts_filter_and_order :
    ∀ (db : List WeatherAlert) (now : Time) (loc : ℤ) (crop : Option ℤ),
    (∀ a, a ∈ get_active_alerts db now loc crop ↔
      (a ∈ db ∧ a.location_id = loc ∧ a.is_active = true ∧ now < a.end_time ∧
        crop_filter crop a = true)) ∧
    List.Sorted severityStartDesc (get_active_alerts db now loc crop) := by
  intro db now loc crop
  constructor
  · intro a
    rw [mem_get_active_alerts]
    simp [active_pred, and_assoc]
  · exact List.sorted_insertionSort _ _

/-- C9: when the reading is hotter than `crop.max_temp`,
`temperature_suitable` is false, and if the humidity also reaches the
high-humidity threshold the risk list contains both "Heat stress risk"
and "Disease risk due to high humidity"; a reading without a
soil-moisture value is never reported soil-moisture suitable. -/
theorem assess_crop_suitability_heat_and_missing_soil :
    ∀ (w : WeatherData) (c : Crop),
    (c.max_temp < w.temperature →
      (assess_crop_suitability w c).temperature_suitable = false ∧
      (HIGH_HUMIDITY ≤ w.humidity →
        "Heat stress risk" ∈ (assess_crop_suitability w c).risk_factors ∧
        "Disease risk due to high humidity" ∈ (assess_crop_suitability w c).risk_factors)) ∧
    (w.soil_moisture = none → (assess_crop_suitability w c).soil_moisture_suitable = false) := by
  intro w c
  constructor
  · intro ht
    have h1 : c.max_temp ≤ w.temperature := le_of_lt ht
    constructor
    · simp only [assess_crop_suitability, decide_eq_false_iff_not, not_and, not_le]
      intro _
      exact ht
    · intro hh
      simp [assess_crop_suitability, analyze_risk_factors, h1, hh, List.mem_append]
  · intro hs
    simp [assess_crop_suitability, hs]

/-- C9 witness: the concrete reading `readingW` against `cropW`
instantiates every hypothesis of the suitability theorem. -/
theorem assess_crop_suitability_heat_and_missing_soil_witness :
    cropW.max_temp < readingW.temperature ∧ HIGH_HUMIDITY ≤ readingW.humidity ∧
    readingW.soil_moisture = none ∧
    (assess_crop_suitability readingW cropW).temperature_suitable = false ∧
    "Heat stress risk" ∈ (assess_crop_suitability readingW cropW).risk_factors ∧
    "Disease risk due to high humidity" ∈ (assess_crop_suitability readingW cropW).risk_factors ∧
    (assess_crop_suitability readingW cropW).soil_moisture_suitable = false :=
  ⟨by norm_num [cropW, readingW], by norm_num [HIGH_HUMIDITY, readingW], rfl,
   ((assess_crop_suitability_heat_and_missing_soil readingW cropW).1
     (by norm_num [cropW, readingW])).1,
   (((assess_crop_suitability_heat_and_missing_soil readingW cropW).1
     (by norm_num [cropW, readingW])).2 (by norm_num [HIGH_HUMIDITY, readingW])).1,
   (((assess_crop_suitability_heat_and_missing_soil readingW cropW).1
     (by norm_num [cropW, readingW])).2 (by norm_num [HIGH_HUMIDITY, readingW])).2,
   (assess_crop_suitability_heat_and_missing_soil readingW cropW).2 rfl⟩

/-- C7 counterexample: resolving an already-resolved alert is claimed to
have no further effect, but a second `resolve` at a later time re-stamps
`resolved_at` and so changes the record. -/
theorem resolve_twice_changes_record :
    (alert7.resolve 1 "" "").resolve 5 "" "" ≠ alert7.resolve 1 "" "" := by
  decide

/-- C7 (amended): `resolve` deactivates the alert, stamps `resolved_at`
with the resolution time, makes `get_duration` equal `resolved_at −
start_time`, and the resolved alert is excluded from every
`get_active_alerts` result; but `resolve` is unguarded — resolving again
re-stamps `resolved_at` with the newer time. -/
theorem resolve_effects :
    ∀ (a : WeatherAlert) (t : Time) (notes impact : String),
    (a.resolve t notes impact).is_active = false ∧
    (a.resolve t notes impact).resolved_at = some t ∧
    (a.resolve t notes impact).get_duration = some (t - a.start_time) ∧
    (∀ (db : List WeatherAlert) (now : Time) (loc : ℤ) (crop : Option ℤ),
      a.resolve t notes impact ∉ get_active_alerts db now loc crop) ∧
    (∀ (t₂ : Time) (n₂ i₂ : String),
      ((a.resolve t notes impact).resolve t₂ n₂ i₂).resolved_at = some t₂) := by
  intro a t notes impact
  refine ⟨rfl, rfl, rfl, ?_, fun _ _ _ => rfl⟩
  intro db now loc crop hmem
  rw [mem_get_active_alerts] at hmem
  have h := hmem.2
  simp [active_pred, WeatherAlert.resolve] at h

/-- C8 counterexample: a translator built with the unsupported code
`"fr"` is claimed to translate into the configured default language
(`'hi'`); on the code it translates into English instead. -/
theorem translator_fr_not_default_language :
    (WeatherTranslator.make (some "fr")).get_weather_condition "CLEAR" = "Clear" ∧
    (WeatherTranslator.make (some DEFAULT_LANGUAGE)).get_weather_condition "CLEAR" = "साफ़" ∧
    ("Clear" : String) ≠ "साफ़" :=
  ⟨rfl, rfl, by decide⟩

/-- C8 (amended): a truthy preferred-language code outside the supported
set makes the translator fall back to the literal `'en'` — not the
configured default language — and every translation it produces is the
English one (still never an error); only a missing or empty code falls
back to the configured default. -/
theorem translator_unsupported_language_falls_back_to_english :
    ∀ lang : String, LANGUAGES.contains lang = false → lang ≠ "" →
    WeatherTranslator.make (some lang) = WeatherTranslator.make (some "en") ∧
    (WeatherTranslator.make (some lang)).language = "en" ∧
    DEFAULT_LANGUAGE ≠ "en" ∧
    (∀ c, (WeatherTranslator.make (some lang)).get_weather_condition c =
          (WeatherTranslator.make (some "en")).get_weather_condition c) ∧
    (∀ v : Val, (WeatherTranslator.make (some lang)).get_temperature_description v =
          (WeatherTranslator.make (some "en")).get_temperature_description v) ∧
    (∀ v : Val, (WeatherTranslator.make (some lang)).get_soil_condition v =
          (WeatherTranslator.make (some "en")).get_soil_condition v) ∧
    (∀ s, (WeatherTranslator.make (some lang)).get_alert_type s =
          (WeatherTranslator.make (some "en")).get_alert_type s) ∧
    (∀ s, (WeatherTranslator.make (some lang)).get_farming_action s =
          (WeatherTranslator.make (some "en")).get_farming_action s) := by
  intro lang hns hne
  have hns' : lang ∉ LANGUAGES := by simpa using hns
  have hmk : WeatherTranslator.make (some lang) = WeatherTranslator.make (some "en") := by
    simp only [WeatherTranslator.make, if_neg hne]
    simp [hns']
  exact ⟨hmk, by rw [hmk]; rfl, by decide, fun c => by rw [hmk], fun v => by rw [hmk],
    fun v => by rw [hmk], fun s => by rw [hmk], fun s => by rw [hmk]⟩

/-- C8 witness: `"fr"` is unsupported and nonempty, and the translator
built from it carries language `'en'`. -/
theorem translator_unsupported_language_witness :
    LANGUAGES.contains "fr" = false ∧ "fr" ≠ "" ∧
    (WeatherTranslator.make (some "fr")).language = "en" :=
  ⟨by decide, by decide,
   (translator_unsupported_language_falls_back_to_english "fr" (by decide) (by decide)).2.1⟩

end KisaanWeather
